import Mathlib

/-!
# Sales-Filter: a shallow embedding of the scoring engine and job orchestration

This file embeds, in Lean 4, the parts of the Sales-Filter repository that the
verified claims are about:

* the string-level helpers and signal detectors of `src/app.py`
  (`extract_domain`, `get_tld`, `is_free_provider`, `analyze_email_pattern`,
  `analyze_name_email_consistency`, `detect_executive_indicators`,
  `detect_technical_professional`, `classify_b2b_vs_b2c`,
  `detect_suspicious_patterns`, `analyze_geographic_intelligence`,
  `detect_industry_vertical_indicators`, `calculate_enhanced_score`);
* the background job orchestration of `src/app.py` (`process_in_background`)
  and of `src/app_v05.py` (`process_file_async`), over an abstract environment
  that decides the outcome of each fallible effect (file read, per-row
  verification, spreadsheet write, database commit, post-completion cleanup);
* the server-sent-events progress stream of `src/app.py` (`progress_stream`),
  as a fuel-indexed event generator over a schedule of observed states.

Python strings are modelled as `List Char` (the inputs of interest are ASCII).
Python string methods are embedded one by one (`pyLower`, `pyStrip`,
`pySplit`, `pySplitWs`, substring membership `isSubstr`, `isSuffix`, ...),
each matching CPython semantics on the relevant inputs; deviations that could
matter are noted at the definition site.
-/

/-- A Python string, modelled as its list of characters. -/
abbrev Str := List Char

namespace SalesFilter

/-! ## Python string primitives -/

/-- Python `s.lower()` (ASCII case folding; the repository data is ASCII). -/
def pyLower (s : Str) : Str := s.map Char.toLower

/-- Python `s.upper()` (ASCII case folding). -/
def pyUpper (s : Str) : Str := s.map Char.toUpper

/-- Python `needle in haystack` on strings: substring membership.
`isSubstr [] h = true`, matching Python. -/
def isSubstr : Str → Str → Bool
  | n, [] => n.isEmpty
  | n, c :: t => n.isPrefixOf (c :: t) || isSubstr n t

/-- Python `s.startswith(p)`. -/
def isStartsWith (p s : Str) : Bool := p.isPrefixOf s

/-- Python `s.endswith(p)`. -/
def isEndsWith (p s : Str) : Bool := p.reverse.isPrefixOf s.reverse

/-- Python `s.strip()`: remove leading and trailing whitespace. -/
def pyStrip (s : Str) : Str :=
  ((s.dropWhile Char.isWhitespace).reverse.dropWhile Char.isWhitespace).reverse

/-- Python `s.split(sep)` for a one-character separator, full split:
`"a@b@c".split("@") == ["a","b","c"]`, `"".split("@") == [""]`,
`"a@".split("@") == ["a",""]`. -/
def pySplit (sep : Char) : Str → List Str
  | [] => [[]]
  | c :: cs =>
    let r := pySplit sep cs
    if c == sep then [] :: r
    else
      match r with
      | h :: t => (c :: h) :: t
      | [] => [[c]]

/-- Python `s.split()` (no separator): split on whitespace runs, dropping
empty tokens. -/
def pySplitWs (s : Str) : List Str :=
  let p := s.foldl
    (fun (p : List Str × Str) c =>
      if c.isWhitespace then
        (if p.2.isEmpty then p else (p.1 ++ [p.2.reverse], []))
      else (p.1, c :: p.2))
    ([], [])
  if p.2.isEmpty then p.1 else p.1 ++ [p.2.reverse]

/-- Python `email.split('@')[0]`: the part before the first `'@'`. -/
def beforeAt (s : Str) : Str := s.takeWhile (fun c => c != '@')

/-- Python `email.split('@')[1]`: the segment strictly between the first
`'@'` and the following `'@'` (or the end of the string). -/
def atSegmentOne (s : Str) : Str :=
  (((s.dropWhile (fun c => c != '@')).drop 1).takeWhile (fun c => c != '@'))

/-- Python `str.isalpha()`: nonempty and all characters alphabetic. -/
def pyIsAlpha (s : Str) : Bool := !s.isEmpty && s.all Char.isAlpha

/-- Python `any(char.isdigit() for char in s)`. -/
def hasDigit (s : Str) : Bool := s.any Char.isDigit

/-- One window of the regex `19[4-9][0-9]|20[0-1][0-9]` (a birth year). -/
def birthYearWindow (a b c d : Char) : Bool :=
  (a == '1' && b == '9' && ('4' ≤ c && c ≤ '9') && c.isDigit && d.isDigit)
    || (a == '2' && b == '0' && ('0' ≤ c && c ≤ '1') && d.isDigit)

/-- Python `re.findall(r'(19[4-9][0-9]|20[0-1][0-9])', s) != []` /
`re.search(r'(19[4-9][0-9]|20[0-1][0-9])', s)`: some 4-character window is a
birth year. -/
def hasBirthYear : Str → Bool
  | a :: b :: c :: d :: rest =>
    birthYearWindow a b c d || hasBirthYear (b :: c :: d :: rest)
  | _ => false

/-- Python `re.search(r'\d{3,}', s)`: three consecutive digits somewhere. -/
def hasDigitRun3 : Str → Bool
  | a :: b :: c :: rest =>
    (a.isDigit && b.isDigit && c.isDigit) || hasDigitRun3 (b :: c :: rest)
  | _ => false

/-- Python `re.search(r'\d{3,}$', s)`: the string ends in at least three
digits. -/
def endsWithDigitRun3 (s : Str) : Bool :=
  decide (3 ≤ s.length) && (s.reverse.take 3).all Char.isDigit

/-- `len(set(s))`: number of distinct characters. -/
def distinctCount (s : Str) : Nat := s.dedup.length

/-- Python `", ".join(parts)`. -/
def joinComma (parts : List Str) : Str := List.intercalate (", ".data) parts

/-- Decimal rendering of an integer, as Python `str`/f-string formatting. -/
def intStr : Int → Str
  | Int.ofNat n => Nat.toDigits 10 n
  | Int.negSucc n => '-' :: Nat.toDigits 10 (n + 1)

/-! ## Domain classification data (`src/app.py` module-level sets) -/

/-- `TELECOM_OPERATORS` from `src/app.py`. -/
def TELECOM_OPERATORS : List Str :=
  ["vodafone.com".data, "vodafone.co.uk".data, "vodafone.de".data, "vodafone.it".data,
   "t-mobile.com".data, "t-mobile.de".data, "t-mobile.nl".data, "t-mobile.at".data,
   "orange.com".data, "orange.fr".data, "orange.es".data, "orange.pl".data,
   "telefonica.com".data, "telefonica.es".data, "telefonica.de".data,
   "telecom.co.nz".data, "telecom.com.au".data, "telecom.pt".data,
   "verizon.com".data, "att.com".data, "sprint.com".data, "tmobile.com".data,
   "bell.ca".data, "rogers.com".data, "telus.com".data,
   "bt.com".data, "ee.co.uk".data, "three.co.uk".data, "o2.co.uk".data,
   "swisscom.ch".data, "telekom.de".data, "kpn.com".data, "proximus.be".data,
   "telenor.com".data, "telia.com".data, "tele2.com".data, "elisa.fi".data,
   "mtn.com".data, "etisalat.ae".data, "stc.com.sa".data, "zain.com".data,
   "bharti.in".data, "airtel.in".data, "jio.com".data, "idea.in".data,
   "singtel.com".data, "celcom.com.my".data, "digi.com.my".data,
   "ntt.com".data, "nttdocomo.com".data, "softbank.jp".data, "kddi.com".data,
   "chinatelecom.com.cn".data, "chinamobile.com".data, "chinaunicom.com".data,
   "sktelecom.com".data, "kt.com".data, "lguplus.co.kr".data]

/-- `ENTERPRISE_DOMAINS` from `src/app.py`. -/
def ENTERPRISE_DOMAINS : List Str :=
  ["microsoft.com".data, "google.com".data, "amazon.com".data, "apple.com".data,
   "facebook.com".data, "meta.com".data, "netflix.com".data, "tesla.com".data,
   "salesforce.com".data, "oracle.com".data, "ibm.com".data, "cisco.com".data,
   "intel.com".data, "nvidia.com".data, "amd.com".data, "qualcomm.com".data,
   "hp.com".data, "dell.com".data, "lenovo.com".data, "sony.com".data,
   "samsung.com".data, "lg.com".data, "huawei.com".data, "xiaomi.com".data,
   "walmart.com".data, "target.com".data, "costco.com".data, "homedepot.com".data,
   "mcdonalds.com".data, "starbucks.com".data, "coca-cola.com".data, "pepsi.com".data,
   "visa.com".data, "mastercard.com".data, "jpmorgan.com".data, "wellsfargo.com".data,
   "bankofamerica.com".data, "goldmansachs.com".data, "morganstanley.com".data,
   "boeing.com".data, "airbus.com".data, "ge.com".data, "siemens.com".data,
   "mercedes-benz.com".data, "bmw.com".data, "volkswagen.com".data, "toyota.com".data,
   "ford.com".data, "gm.com".data, "exxonmobil.com".data, "shell.com".data,
   "bp.com".data, "chevron.com".data, "totalenergies.com".data]

/-- `FREE_PROVIDERS` from `src/app.py`. -/
def FREE_PROVIDERS : List Str :=
  ["gmail.com".data, "yahoo.com".data, "outlook.com".data, "hotmail.com".data,
   "aol.com".data, "icloud.com".data, "protonmail.com".data, "yandex.com".data,
   "mail.com".data, "gmx.com".data, "web.de".data, "freenet.de".data,
   "live.com".data, "msn.com".data, "me.com".data, "mac.com".data,
   "yahoo.co.uk".data, "yahoo.de".data, "yahoo.fr".data, "yahoo.ca".data,
   "googlemail.com".data, "gmail.co.uk".data, "gmail.de".data,
   "proton.me".data, "188.com".data]

/-- `TELECOM_TLDS` from `src/app.py`. -/
def TELECOM_TLDS : List Str :=
  [".net".data, ".tel".data, ".io".data, ".us".data, ".de".data, ".co.il".data,
   ".co.uk".data, ".fr".data, ".nl".data, ".be".data, ".ch".data, ".at".data,
   ".it".data, ".es".data, ".pt".data, ".pl".data, ".cz".data, ".sk".data,
   ".hu".data, ".ro".data, ".bg".data, ".hr".data, ".si".data, ".fi".data,
   ".se".data, ".no".data, ".dk".data, ".ee".data, ".lv".data, ".lt".data]

/-- `is_free_provider(domain)` from `src/app.py`: exact membership in
`FREE_PROVIDERS`, or one of the wildcard prefixes
`outlook.` / `yahoo.` / `hotmail.`. -/
def is_free_provider (domain : Str) : Bool :=
  if domain.isEmpty then false
  else if FREE_PROVIDERS.contains domain then true
  else isStartsWith ("outlook.".data) domain
    || isStartsWith ("yahoo.".data) domain
    || isStartsWith ("hotmail.".data) domain

/-- `extract_domain(email)` from `src/app.py`:
`None` when the email is empty or has no `'@'`; otherwise
`str(email).split('@')[1].lower().strip()`, i.e. the segment between the
first `'@'` and the next `'@'` (or the end), lower-cased and stripped.
(`pd.isna` never fires on the string inputs modelled here.) -/
def extract_domain (email : Str) : Option Str :=
  if email.isEmpty || !email.contains '@' then none
  else some (pyStrip (pyLower (atSegmentOne email)))

/-- `get_tld(domain)` from `src/app.py`: the final dot-component of the
domain prefixed with a dot, or the final two components for second-level
registries (`co`, `com`, `org`, `net`, `gov`, `edu`). -/
def get_tld (domain : Str) : Option Str :=
  if domain.isEmpty then none
  else
    let parts := pySplit '.' domain
    if parts.length < 2 then none
    else
      match parts.reverse with
      | last :: penult :: _ =>
        if 3 ≤ parts.length
            && (["co".data, "com".data, "org".data, "net".data,
                 "gov".data, "edu".data].contains penult) then
          some ('.' :: penult ++ '.' :: last)
        else some ('.' :: last)
      | _ => none

/-! ## Signal detectors (`src/app.py`) -/

/-- `any(pat in s for pat in pats)`. -/
def anyIn (pats : List Str) (s : Str) : Bool := pats.any (fun p => isSubstr p s)

/-- `analyze_email_pattern(email)` from `src/app.py`. Returns the signed
sub-score and the comma-joined reason string. The `f.lastname (+12)` branch
of the source is unreachable (it requires `len(first) == 1` inside a guard
demanding `2 <= len(first)`) and is transcribed as written. -/
def analyze_email_pattern (email : Str) : Int × Str :=
  if email.isEmpty || !email.contains '@' then (0, "Invalid email format".data)
  else
    let local_part := pyLower (beforeAt email)
    let dotted : Int × List Str :=
      if local_part.contains '.' then
        let parts := pySplit '.' local_part
        match parts with
        | [first, last] =>
          if (2 ≤ first.length && first.length ≤ 15)
              && (2 ≤ last.length && last.length ≤ 15) then
            if pyIsAlpha first && pyIsAlpha last then
              (15, ["Professional firstname.lastname format (+15)".data])
            else if first.length == 1 && pyIsAlpha last then
              (12, ["Professional f.lastname format (+12)".data])
            else (8, ["Professional dotted format (+8)".data])
          else (0, [])
        | _ => (0, [])
      else (0, [])
    let roles : Int × List Str :=
      if anyIn ["ceo".data, "president".data, "director".data, "vp".data,
                "vice.president".data, "managing.director".data] local_part then
        (20, ["Executive role email (+20)".data])
      else if anyIn ["manager".data, "lead".data, "head".data,
                     "supervisor".data, "chief".data] local_part then
        (15, ["Management role email (+15)".data])
      else if anyIn ["admin".data, "it".data, "tech".data, "developer".data,
                     "engineer".data, "dev".data] local_part then
        (10, ["Technical role email (+10)".data])
      else (0, [])
    let generic : Int × List Str :=
      if anyIn ["info".data, "contact".data, "sales".data, "support".data,
                "hello".data, "enquiry".data, "inquiry".data] local_part then
        (-5, ["Generic email address (-5)".data])
      else if anyIn ["noreply".data, "no.reply".data, "donotreply".data,
                     "automated".data, "bulk".data, "marketing".data] local_part then
        (-15, ["Automated/bulk email address (-15)".data])
      else (0, [])
    let lenq : Int × List Str :=
      if 6 ≤ local_part.length && local_part.length ≤ 12 then
        (5, ["Professional username length (+5)".data])
      else if local_part.length < 4 || local_part.length > 20 then
        (-5, ["Unprofessional username length (-5)".data])
      else (0, [])
    let nums : Int × List Str :=
      if pyIsAlpha local_part then (5, ["Alphabetic username (+5)".data])
      else if hasDigit local_part then
        if hasBirthYear local_part then
          (-3, ["Contains birth year - personal email (-3)".data])
        else if hasDigitRun3 local_part then
          (-10, ["Random numbers - generated account (-10)".data])
        else (0, [])
      else (0, [])
    (dotted.1 + roles.1 + generic.1 + lenq.1 + nums.1,
     joinComma (dotted.2 ++ roles.2 ++ generic.2 ++ lenq.2 ++ nums.2))

/-- `analyze_name_email_consistency(name, email)` from `src/app.py`. -/
def analyze_name_email_consistency (name email : Str) : Int × Str :=
  if name.isEmpty || email.isEmpty || !email.contains '@' then
    (0, "Missing name or email".data)
  else
    let local_part := pyLower (beforeAt email)
    let name_parts := pySplitWs (pyLower name)
    if 2 ≤ name_parts.length then
      let first_name := name_parts.headI
      let last_name := name_parts.getLastI
      if (first_name ++ '.' :: last_name) == local_part then
        (10, "Perfect name-email match (+10)".data)
      else if (first_name.take 1 ++ '.' :: last_name) == local_part then
        (8, "Initial.lastname match (+8)".data)
      else if first_name == local_part || last_name == local_part then
        (6, "Partial name match (+6)".data)
      else if isSubstr first_name local_part && isSubstr last_name local_part then
        (5, "Name components in email (+5)".data)
      else if name_parts.any (fun part => isSubstr part local_part) then
        (3, "Name part in email (+3)".data)
      else if pyIsAlpha local_part && 5 < local_part.length then
        (-5, "Name-email mismatch (-5)".data)
      else (0, [])
    else (0, [])

/-- `detect_executive_indicators(name, email)` from `src/app.py`. -/
def detect_executive_indicators (name email : Str) : Int × Str :=
  if name.isEmpty && email.isEmpty then (0, "Missing name and email".data)
  else
    let name_upper := if name.isEmpty then [] else pyUpper name
    if anyIn ["CEO".data, "CTO".data, "CFO".data, "CMO".data, "COO".data,
              "PRESIDENT".data, "VP".data, "VICE PRESIDENT".data,
              "MANAGING DIRECTOR".data, "EXECUTIVE DIRECTOR".data,
              "CHAIRMAN".data, "FOUNDER".data] name_upper then
      (25, "Executive title in name (+25)".data)
    else if anyIn ["DIRECTOR".data, "MANAGER".data, "HEAD OF".data,
                   "LEAD".data, "SENIOR".data, "PRINCIPAL".data] name_upper then
      (15, "Management title in name (+15)".data)
    else if anyIn ["DR.".data, "DR".data, "PROF.".data, "PROFESSOR".data,
                   "MR.".data, "MS.".data, "MRS.".data] name_upper then
      (10, "Professional title in name (+10)".data)
    else (0, [])

/-- `detect_technical_professional(name, email, domain)` from `src/app.py`. -/
def detect_technical_professional (name email domain : Str) : Int × Str :=
  if email.isEmpty then (0, "Missing email".data)
  else
    let local_part := if email.contains '@' then pyLower (beforeAt email) else []
    let domain_lower := if domain.isEmpty then [] else pyLower domain
    let p1 : Int × List Str :=
      if anyIn ["dev".data, "developer".data, "tech".data, "engineer".data,
                "eng".data, "it".data, "admin".data, "sysadmin".data,
                "devops".data, "architect".data, "programmer".data,
                "coder".data] local_part then
        (15, ["Technical role in email (+15)".data])
      else (0, [])
    let p2 : Int × List Str :=
      if anyIn [".io".data, ".dev".data, ".tech".data, ".ai".data,
                ".cloud".data] domain_lower then
        (10, ["Technical domain TLD (+10)".data])
      else (0, [])
    let p3 : Int × List Str :=
      if !name.isEmpty
          && anyIn ["developer".data, "engineer".data, "programmer".data,
                    "architect".data, "devops".data, "sysadmin".data]
                   (pyLower name) then
        (12, ["Technical role in name (+12)".data])
      else (0, [])
    (p1.1 + p2.1 + p3.1, joinComma (p1.2 ++ p2.2 ++ p3.2))

/-- `classify_b2b_vs_b2c(name, email, domain)` from `src/app.py`. -/
def classify_b2b_vs_b2c (name email domain : Str) : Int × Str :=
  if email.isEmpty || domain.isEmpty then (0, "Missing email or domain".data)
  else
    let local_part := if email.contains '@' then pyLower (beforeAt email) else []
    let p1 : Int × List Str :=
      if local_part.contains '.' && !hasDigit local_part then
        (10, ["B2B email pattern (+10)".data])
      else (0, [])
    let p2 : Int × List Str :=
      if anyIn ["corp".data, "company".data, "group".data, "ltd".data,
                "llc".data, "inc".data] (pyLower domain) then
        (8, ["Corporate domain indicator (+8)".data])
      else (0, [])
    let p3 : Int × List Str :=
      if anyIn ["nickname".data, "personal".data, "family".data] local_part then
        (-5, ["Consumer email pattern (-5)".data])
      else (0, [])
    let p4 : Int × List Str :=
      if hasBirthYear local_part then
        (-3, ["Personal birth year pattern (-3)".data])
      else (0, [])
    (p1.1 + p2.1 + p3.1 + p4.1, joinComma (p1.2 ++ p2.2 ++ p3.2 ++ p4.2))

/-- `detect_suspicious_patterns(name, email)` from `src/app.py`.
The character-diversity test `len(set(lp)) < len(lp) * 0.7` is modelled by
the exact comparison `10 * distinct < 7 * len`; for integers `d`, `n` the
double-precision test `d < n * 0.7` agrees with `10 * d < 7 * n` (the float
product never crosses an integer away from the exact value). -/
def detect_suspicious_patterns (name email : Str) : Int × Str :=
  if email.isEmpty then (0, "Missing email".data)
  else
    let local_part := if email.contains '@' then pyLower (beforeAt email) else []
    let p1 : Int × List Str :=
      if endsWithDigitRun3 local_part then
        (-10, ["Sequential number pattern (-10)".data])
      else (0, [])
    let p2 : Int × List Str :=
      if 10 * distinctCount local_part < 7 * local_part.length then
        (-15, ["Low character diversity - generated (-15)".data])
      else (0, [])
    let p3 : Int × List Str :=
      if anyIn ["test".data, "temp".data, "fake".data, "dummy".data,
                "sample".data, "example".data] local_part then
        (-20, ["Test/fake account pattern (-20)".data])
      else (0, [])
    let p4 : Int × List Str :=
      if anyIn ["newsletter".data, "marketing".data, "bulk".data,
                "mass".data, "list".data] local_part then
        (-15, ["Bulk email pattern (-15)".data])
      else (0, [])
    let p5 : Int × List Str :=
      if !name.isEmpty then
        let name_clean := (pySplitWs (pyLower name)).flatten
        if 3 < name_clean.length && !isSubstr name_clean local_part
            && !((pySplitWs (pyLower name)).any
                  (fun part => isSubstr part local_part)) then
          if pyIsAlpha local_part && 6 < local_part.length then
            (-20, ["Severe name-email mismatch (-20)".data])
          else (0, [])
        else (0, [])
      else (0, [])
    (p1.1 + p2.1 + p3.1 + p4.1 + p5.1,
     joinComma (p1.2 ++ p2.2 ++ p3.2 ++ p4.2 ++ p5.2))

/-- First suffix match in one geographic table: `(points, reason)`. -/
def geoScan (table : List (Str × Int × Str)) (d : Str) : Int × List Str :=
  match table.find? (fun e => isEndsWith e.1 d) with
  | some e => (e.2.1, [e.2.2])
  | none => (0, [])

/-- `analyze_geographic_intelligence(domain)` from `src/app.py`: three TLD
tables (premium, good, restricted), each applying its first suffix match. -/
def analyze_geographic_intelligence (domain : Str) : Int × Str :=
  if domain.isEmpty then (0, "Missing domain".data)
  else
    let d := pyLower domain
    let premium := geoScan
      [(".de".data, 15, "Germany domain - telecom-friendly (+15)".data),
       (".nl".data, 15, "Netherlands domain - telecom-friendly (+15)".data),
       (".ch".data, 15, "Switzerland domain - telecom-friendly (+15)".data),
       (".at".data, 15, "Austria domain - telecom-friendly (+15)".data),
       (".se".data, 12, "Sweden domain - telecom-friendly (+12)".data),
       (".no".data, 12, "Norway domain - telecom-friendly (+12)".data),
       (".dk".data, 12, "Denmark domain - telecom-friendly (+12)".data),
       (".fi".data, 12, "Finland domain - telecom-friendly (+12)".data)] d
    let good := geoScan
      [(".sg".data, 10, "Singapore domain - business-friendly (+10)".data),
       (".hk".data, 10, "Hong Kong domain - business-friendly (+10)".data),
       (".au".data, 10, "Australia domain - business-friendly (+10)".data),
       (".ca".data, 12, "Canada domain - business-friendly (+12)".data),
       (".uk".data, 12, "United Kingdom domain - business-friendly (+12)".data),
       (".fr".data, 12, "France domain - business-friendly (+12)".data),
       (".jp".data, 8, "Japan domain - business-friendly (+8)".data),
       (".kr".data, 8, "South Korea domain - business-friendly (+8)".data)] d
    let restricted := geoScan
      [(".cn".data, -20, "China domain - restricted/sanctioned (-20)".data),
       (".ru".data, -50, "Russia domain - restricted/sanctioned (-50)".data),
       (".by".data, -30, "Belarus domain - restricted/sanctioned (-30)".data),
       (".ir".data, -40, "Iran domain - restricted/sanctioned (-40)".data),
       (".kp".data, -50, "North Korea domain - restricted/sanctioned (-50)".data)] d
    (premium.1 + good.1 + restricted.1,
     joinComma (premium.2 ++ good.2 ++ restricted.2))

/-- `detect_industry_vertical_indicators(email, domain)` from `src/app.py`:
`(score, reasons, industry)`. The source returns a 2-tuple on the
`not email and not domain` branch (a latent `ValueError` at the unpacking
call site); `calculate_enhanced_score` only calls it with a nonempty domain,
so the branch is unreachable there and modelled as scoring zero. -/
def detect_industry_vertical_indicators (email domain : Str) : Int × Str × Str :=
  if email.isEmpty && domain.isEmpty then
    (0, "Missing email and domain".data, "Unknown".data)
  else
    let local_part :=
      if !email.isEmpty && email.contains '@' then pyLower (beforeAt email)
      else []
    let domain_lower := if domain.isEmpty then [] else pyLower domain
    let both := fun (ind : Str) => isSubstr ind domain_lower || isSubstr ind local_part
    if ["telecom".data, "telco".data, "mobile".data, "cellular".data,
        "wireless".data, "network".data, "isp".data, "broadband".data,
        "5g".data, "fiber".data, "voip".data, "pbx".data].any both then
      (20, "Telecom industry indicators (+20)".data, "Telecom".data)
    else if ["tech".data, "software".data, "cloud".data, "saas".data,
             "digital".data, "cyber".data, "data".data, "ai".data, "ml".data,
             "iot".data, "api".data, "platform".data].any both then
      (15, "Technology sector indicators (+15)".data, "Technology".data)
    else if ["bank".data, "finance".data, "financial".data, "invest".data,
             "capital".data, "fund".data, "insurance".data, "fintech".data,
             "trading".data, "wealth".data].any both then
      (12, "Financial services indicators (+12)".data, "Financial Services".data)
    else if ["health".data, "medical".data, "hospital".data, "clinic".data,
             "pharma".data, "bio".data, "medtech".data, "healthcare".data,
             "wellness".data].any both then
      (8, "Healthcare industry indicators (+8)".data, "Healthcare".data)
    else if ["manufacturing".data, "industrial".data, "factory".data,
             "production".data, "automotive".data, "aerospace".data,
             "chemical".data, "steel".data].any both then
      (10, "Manufacturing industry indicators (+10)".data, "Manufacturing".data)
    else (0, [], "Unknown".data)

/-! ## The score aggregator (`calculate_enhanced_score`, `src/app.py`) -/

/-- A value stored in the `intelligence_data` dictionary. -/
inductive IVal where
  | i : Int → IVal
  | b : Bool → IVal
  | s : Str → IVal
deriving DecidableEq

/-- The boolean verification inputs of `calculate_enhanced_score`, in source
order. -/
structure VerifFlags where
  domain_alive : Bool := false
  linkedin_verified : Bool := false
  facebook_verified : Bool := false
  linkedin_match : Bool := false
  facebook_match : Bool := false
  github_verified : Bool := false
  github_match : Bool := false
deriving DecidableEq

/-- The triple returned by `calculate_enhanced_score`: the capped score, the
joined rationale string, and the `intelligence_data` dictionary (modelled as
its key/value pairs in insertion order). -/
structure ScoreResult where
  score : Int
  reason : Str
  data : List (Str × IVal)
deriving DecidableEq

/-- One `score += sub; if sub_reasons: reasons.append(...); data[key] = sub`
step of `calculate_enhanced_score`. -/
def addComponent (acc : Int × List Str × List (Str × IVal)) (c : Int × Str)
    (key : Str) : Int × List Str × List (Str × IVal) :=
  (acc.1 + c.1,
   if c.2.isEmpty then acc.2.1 else acc.2.1 ++ [c.2],
   if c.2.isEmpty then acc.2.2 else acc.2.2 ++ [(key, IVal.i c.1)])

/-- The accumulation part of `calculate_enhanced_score` (everything after
the two early returns and before the final clamp): the eight intelligence
components, base domain classification, TLD bonus, the domain-alive block
(skipped for free providers), name format, and the three
social-verification bonuses. Returns the running
`(score, reasons, intelligence_data)` triple. -/
def enhancedComponents (domain name email : Str) (f : VerifFlags) :
    Int × List Str × List (Str × IVal) :=
    let tld := get_tld domain
    let a0 : Int × List Str × List (Str × IVal) := (0, [], [])
    let a1 := addComponent a0 (analyze_email_pattern email)
      ("email_pattern_score".data)
    let a2 := addComponent a1 (analyze_name_email_consistency name email)
      ("consistency_score".data)
    let a3 := addComponent a2 (detect_executive_indicators name email)
      ("executive_score".data)
    let a4 := addComponent a3 (detect_technical_professional name email domain)
      ("technical_score".data)
    let a5 := addComponent a4 (classify_b2b_vs_b2c name email domain)
      ("b2b_score".data)
    let a6 := addComponent a5 (detect_suspicious_patterns name email)
      ("suspicious_score".data)
    let a7 := addComponent a6 (analyze_geographic_intelligence domain)
      ("geographic_score".data)
    let ind := detect_industry_vertical_indicators email domain
    let a8 : Int × List Str × List (Str × IVal) :=
      (a7.1 + ind.1,
       if ind.2.1.isEmpty then a7.2.1 else a7.2.1 ++ [ind.2.1],
       if ind.2.1.isEmpty then a7.2.2
       else a7.2.2 ++ [("industry_score".data, IVal.i ind.1),
                       ("detected_industry".data, IVal.s ind.2.2)])
    let base : Int × Str × Str :=
      if is_free_provider domain then
        (5, "Free email provider (+5)".data, "free".data)
      else if TELECOM_OPERATORS.contains domain then
        (40, "Telecom operator domain (+40)".data, "telecom".data)
      else if ENTERPRISE_DOMAINS.contains domain then
        (30, "Large enterprise domain (+30)".data, "enterprise".data)
      else (15, "Corporate domain (+15)".data, "corporate".data)
    let a9 : Int × List Str × List (Str × IVal) :=
      (a8.1 + base.1, a8.2.1 ++ [base.2.1],
       a8.2.2 ++ [("domain_type".data, IVal.s base.2.2)])
    let a10 : Int × List Str × List (Str × IVal) :=
      match tld with
      | some t =>
        if TELECOM_TLDS.contains t then
          (a9.1 + 10,
           a9.2.1 ++ ["Telecom-friendly TLD ".data ++ t ++ " (+10)".data],
           a9.2.2)
        else a9
      | none => a9
    let a11 : Int × List Str × List (Str × IVal) :=
      if !is_free_provider domain then
        if f.domain_alive then
          (a10.1 + 20,
           a10.2.1 ++ ["Domain is alive and accessible (+20)".data], a10.2.2)
        else (a10.1, a10.2.1 ++ ["Domain not accessible (0)".data], a10.2.2)
      else
        (a10.1, a10.2.1 ++ ["Free email provider - domain check skipped".data],
         a10.2.2)
    let a12 : Int × List Str × List (Str × IVal) :=
      (a11.1, a11.2.1,
       a11.2.2 ++ [("domain_alive".data, IVal.b f.domain_alive)])
    let a13 : Int × List Str × List (Str × IVal) :=
      if !name.isEmpty && 2 ≤ (pySplitWs (pyStrip name)).length then
        (a12.1 + 10, a12.2.1 ++ ["Professional name format (+10)".data],
         a12.2.2)
      else if !name.isEmpty && 0 < (pyStrip name).length then
        (a12.1 + 5, a12.2.1 ++ ["Single name provided (+5)".data], a12.2.2)
      else a12
    let a14 : Int × List Str × List (Str × IVal) :=
      if f.linkedin_verified then
        if f.linkedin_match then
          (a13.1 + 10,
           a13.2.1 ++ ["LinkedIn profile verified and matches (+10)".data],
           a13.2.2)
        else
          (a13.1 + 5,
           a13.2.1 ++ ["LinkedIn profile found but no exact match (+5)".data],
           a13.2.2)
      else a13
    let a15 : Int × List Str × List (Str × IVal) :=
      (a14.1, a14.2.1,
       a14.2.2 ++ [("linkedin_verified".data, IVal.b f.linkedin_verified),
                   ("linkedin_match".data, IVal.b f.linkedin_match)])
    let a16 : Int × List Str × List (Str × IVal) :=
      if f.facebook_verified then
        if f.facebook_match then
          (a15.1 + 10,
           a15.2.1 ++ ["Facebook profile verified and matches (+10)".data],
           a15.2.2)
        else
          (a15.1 + 5,
           a15.2.1 ++ ["Facebook profile found but no exact match (+5)".data],
           a15.2.2)
      else a15
    let a17 : Int × List Str × List (Str × IVal) :=
      (a16.1, a16.2.1,
       a16.2.2 ++ [("facebook_verified".data, IVal.b f.facebook_verified),
                   ("facebook_match".data, IVal.b f.facebook_match)])
    let a18 : Int × List Str × List (Str × IVal) :=
      if f.github_verified then
        if f.github_match then
          (a17.1 + 15,
           a17.2.1 ++ ["GitHub profile verified and matches (+15)".data],
           a17.2.2)
        else
          (a17.1 + 10,
           a17.2.1 ++ ["GitHub profile found but no exact match (+10)".data],
           a17.2.2)
      else a17
    (a18.1, a18.2.1,
     a18.2.2 ++ [("github_verified".data, IVal.b f.github_verified),
                 ("github_match".data, IVal.b f.github_match)])

/-- `calculate_enhanced_score(domain, name, email, domain_alive,
linkedin_verified, facebook_verified, linkedin_match, facebook_match,
github_verified, github_match)` from `src/app.py`: the invalid-domain early
return (score 0), the Russian-TLD sanctions early return (score -50,
skipping every other detector), then the accumulated components of
`enhancedComponents` with the final clamp `max(-50, min(150, score))` and
the rationale string `", ".join(reasons) + f", total = {final_score}"`. -/
def calculate_enhanced_score (domain name email : Str) (f : VerifFlags) :
    ScoreResult :=
  if domain.isEmpty then ⟨0, "Invalid domain".data, []⟩
  else if get_tld domain == some (".ru".data) then
    ⟨-50,
     "Russian domain - sanctions applied (-50)".data ++ ", total = ".data
       ++ intStr (-50),
     [("sanctions_applied".data, IVal.b true)]⟩
  else
    let acc := enhancedComponents domain name email f
    let final_score := max (-50) (min 150 acc.1)
    ⟨final_score,
     joinComma acc.2.1 ++ ", total = ".data ++ intStr final_score,
     acc.2.2⟩

/-! ## Job orchestration (`process_in_background` in `src/app.py`,
`process_file_async` in `src/app_v05.py`)

The background workers are modelled as functions of an abstract environment
that decides the outcome of each fallible effect the source wraps in (or
lets escape to) a `try/except`: the spreadsheet read, each row's processing
(the verification adapters catch their own errors internally, but e.g. the
per-row log commit can raise), the output-spreadsheet write, the final
database commit, and the post-completion epilogue (success log, temp-file
unlink). Log messages are modelled by their static prefixes (the dynamic
`str(e)` suffix is irrelevant to the claims); only error-level log entries
are tracked. The outcome records the committed values of the session
`status` column in write order (starting with the value at session
creation), the persisted result rows, and the error-level log messages. -/

/-- One input row of the uploaded dataset. -/
structure RowIn where
  name : Str
  email : Str
deriving DecidableEq

/-- The parsed upload: its column names and its rows. -/
structure DF where
  cols : List Str
  rows : List RowIn
deriving DecidableEq

/-- The environment of one `process_in_background` run in `src/app.py`:
`read` is the parsed spreadsheet (`none`: `pd.read_excel` raised),
`rowThrows i` says whether processing row `i` raises an exception,
`rowVerif i` gives the verification-adapter outcomes for row `i`,
`excelOk` whether `df.to_excel` succeeds, `dbOk` whether the final bulk
result/session commit succeeds, and `postOk` whether the post-commit
epilogue (success log write, temp-file unlink) runs without raising. -/
structure JobEnv where
  read : Option DF
  rowThrows : Nat → Bool
  rowVerif : Nat → VerifFlags
  excelOk : Bool
  dbOk : Bool
  postOk : Bool

/-- The observable outcome of a background run: committed `status` values in
order, persisted result rows, and error-level log messages. -/
structure JobOutcome where
  statuses : List Str
  results : List (RowIn × ScoreResult)
  errLogs : List Str
deriving DecidableEq

/-- The required upload columns of `src/app.py` that are absent. -/
def missingCols (df : DF) : List Str :=
  ["name".data, "email".data].filter (fun c => !df.cols.contains c)

/-- Scoring one row as the `src/app.py` loop does: extract the domain
(`None` modelled as the empty string, which `calculate_enhanced_score`
treats as invalid), force `domain_alive := False` for free-provider domains
(the loop skips `check_domain_alive` there), then call
`calculate_enhanced_score`. -/
def scoreRow (r : RowIn) (v : VerifFlags) : ScoreResult :=
  let domain := (extract_domain r.email).getD []
  let v' := if is_free_provider domain then { v with domain_alive := false }
            else v
  calculate_enhanced_score domain r.name r.email v'

/-- `process_in_background` from `src/app.py` (the worker started by
`process_file`, which creates the session with `status='processing'`).
There is no per-row exception handler: an exception in the row loop
escapes to the job-level handler, which logs one error and marks the
session failed; results are only persisted by the single bulk commit at
the end, and a failure of the post-commit epilogue is caught by the same
job-level handler, which marks the already-completed session failed. -/
def process_in_background (env : JobEnv) : JobOutcome :=
  match env.read with
  | none =>
    ⟨["processing".data, "failed".data], [],
     ["Error reading Excel file".data]⟩
  | some df =>
    if !(missingCols df).isEmpty then
      ⟨["processing".data, "failed".data], [],
       ["Missing required columns: ".data ++ joinComma (missingCols df)]⟩
    else if (List.range df.rows.length).any env.rowThrows then
      ⟨["processing".data, "failed".data], [], ["Processing error".data]⟩
    else
      let results := df.rows.enum.map
        (fun p => (p.2, scoreRow p.2 (env.rowVerif p.1)))
      if !env.excelOk then
        ⟨["processing".data, "failed".data], [], ["Processing error".data]⟩
      else if !env.dbOk then
        ⟨["processing".data, "failed".data, "failed".data], [],
         ["Database error".data, "Processing error".data]⟩
      else if !env.postOk then
        ⟨["processing".data, "completed".data, "failed".data], results,
         ["Processing error".data]⟩
      else
        ⟨["processing".data, "completed".data], results, []⟩

/-- The environment of one `process_file_async` run in `src/app_v05.py`
(runs without date filtering, the case the claims concern). The engine used
there is the DIDWW one; the claims about this worker concern only which
rows survive, so a persisted row is modelled as `(row_number, row)`. -/
structure JobEnvV05 where
  read : Option DF
  rowThrows : Nat → Bool
  dbOk : Bool
  excelOk : Bool

/-- The observable outcome of a `src/app_v05.py` background run. -/
structure JobOutcomeV05 where
  statuses : List Str
  results : List (Nat × RowIn)
  errLogs : List Str
deriving DecidableEq

/-- `process_file_async` from `src/app_v05.py` (the session is created with
`status='pending'` by the upload route, and the worker first commits
`status='processing'`). The row loop catches each row's exception,
logs `Error processing row {idx + 1}: ...` at error level and continues;
surviving rows are bulk-committed, then the output spreadsheet is written
and the session is committed `completed`; an exception outside the loop is
caught by the job-level handler, which logs `Processing failed: ...` and
commits `failed`. A missing required column raises
`ValueError(f'Missing required columns: ...')` into that handler. -/
def process_file_async (env : JobEnvV05) : JobOutcomeV05 :=
  match env.read with
  | none =>
    ⟨["pending".data, "processing".data, "failed".data], [],
     ["Processing failed: ".data]⟩
  | some df =>
    if !(missingCols df).isEmpty then
      ⟨["pending".data, "processing".data, "failed".data], [],
       ["Processing failed: Missing required columns: ".data
          ++ joinComma (missingCols df)]⟩
    else
      let kept := (df.rows.enum.filter (fun p => !env.rowThrows p.1)).map
        (fun p => (p.1 + 1, p.2))
      let rowErrs := (df.rows.enum.filter (fun p => env.rowThrows p.1)).map
        (fun p => "Error processing row ".data ++ Nat.toDigits 10 (p.1 + 1)
          ++ ": ".data)
      if !env.dbOk then
        ⟨["pending".data, "processing".data, "failed".data], [],
         rowErrs ++ ["Processing failed: ".data]⟩
      else if !env.excelOk then
        ⟨["pending".data, "processing".data, "failed".data], kept,
         rowErrs ++ ["Processing failed: ".data]⟩
      else
        ⟨["pending".data, "processing".data, "completed".data], kept,
         rowErrs⟩

/-- Subsequence test (used to state the "status sequence is a subsequence
of the chain" claim). -/
def isSubseq : List Str → List Str → Bool
  | [], _ => true
  | _ :: _, [] => false
  | a :: l, b :: m => if a == b then isSubseq l m else isSubseq (a :: l) m

/-- Collapse immediate repetitions (polling the same status twice is not a
transition). -/
def destutterStatuses (l : List Str) : List Str := l.destutter (· ≠ ·)

/-- The status chains the claim allows: a subsequence of
`pending → processing → completed` or of `pending → processing → failed`. -/
def statusChainOk (t : List Str) : Bool :=
  isSubseq t ["pending".data, "processing".data, "completed".data]
    || isSubseq t ["pending".data, "processing".data, "failed".data]

/-! ## The progress stream (`progress_stream` in `src/app.py`)

The server-sent-events generator is modelled over a *schedule*: the
sequence of states it observes, one per iteration of its polling loop
(each entry is either the in-memory progress snapshot — current step plus
the log list — or, when the snapshot is absent, the session status read
from the database). The generator first yields a `connected` event; each
iteration on a present snapshot yields one `progress` event, then one
`log` event per log entry past the subscriber's cursor, then — only if the
snapshot's step is `completed` — a `complete` event followed by closing;
on an absent snapshot it yields `complete` and closes only if the database
status is `completed`. A finite schedule models a finite prefix of the
infinite polling loop; the returned flag says whether the stream closed
within that prefix. -/

/-- The `'completed'` marker the stream loop compares against. -/
def completedStep : Str := "completed".data

/-- One observed state of the polling loop. -/
inductive SnapSt where
  | present : Str → List Str → SnapSt
  | absent : Option Str → SnapSt
deriving DecidableEq

/-- A server-sent event. -/
inductive SEvent where
  | connected : SEvent
  | progress : Str → SEvent
  | log : Str → SEvent
  | complete : SEvent
deriving DecidableEq

/-- The polling loop of `progress_stream`, with the per-subscriber log
cursor (`last_log_index`). Returns the emitted events and whether the
loop broke (the stream closed). -/
def streamLoop : List SnapSt → Nat → List SEvent × Bool
  | [], _ => ([], false)
  | SnapSt.present step logs :: rest, cur =>
    let newLogs := logs.drop cur
    let evs := SEvent.progress step :: newLogs.map SEvent.log
    if step == completedStep then (evs ++ [SEvent.complete], true)
    else
      let cur2 := if newLogs.isEmpty then cur else logs.length
      let t := streamLoop rest cur2
      (evs ++ t.1, t.2)
  | SnapSt.absent st :: rest, cur =>
    if st == some completedStep then ([SEvent.complete], true)
    else streamLoop rest cur

/-- `progress_stream` from `src/app.py`: the initial `connected` event
followed by the polling loop with cursor 0. -/
def progress_stream (sched : List SnapSt) : List SEvent × Bool :=
  ((SEvent.connected :: (streamLoop sched 0).1), (streamLoop sched 0).2)

/-- The log payloads of an event list, in emission order. -/
def logPayloads (evs : List SEvent) : List Str :=
  evs.filterMap (fun e => match e with
    | SEvent.log s => some s
    | _ => none)

/-- A schedule state that is not in the completed state (neither an
in-memory step `'completed'` nor a database status `'completed'`). -/
def notCompleted : SnapSt → Bool
  | SnapSt.present step _ => step != completedStep
  | SnapSt.absent st => st != some completedStep

end SalesFilter

/-! # Theorems -/

set_option maxRecDepth 10000

namespace SalesFilter

/-! ## Character-level helper lemmas (ASCII case folding) -/

theorem charEq_of_toNat (a b : Char) (h : a.toNat = b.toNat) : a = b :=
  Char.eq_of_val_eq (UInt32.ext h)

theorem char_ofNat_add32_toNat (n : Nat) (h1 : 65 ≤ n) (h2 : n ≤ 90) :
    (Char.ofNat (n + 32)).toNat = n + 32 := by
  have hv : (n + 32).isValidChar := Or.inl (by omega)
  unfold Char.ofNat
  rw [dif_pos hv]
  rfl

theorem toLower_toNat (c : Char) :
    (Char.toLower c).toNat =
      if 65 ≤ c.toNat ∧ c.toNat ≤ 90 then c.toNat + 32 else c.toNat := by
  unfold Char.toLower
  by_cases h : c.toNat ≥ 65 ∧ c.toNat ≤ 90
  · rw [if_pos h, if_pos ⟨h.1, h.2⟩]
    exact char_ofNat_add32_toNat c.toNat h.1 h.2
  · rw [if_neg h, if_neg (fun hc => h ⟨hc.1, hc.2⟩)]

theorem toLower_idem (c : Char) : (Char.toLower c).toLower = Char.toLower c := by
  apply charEq_of_toNat
  have h1 := toLower_toNat c
  have h2 := toLower_toNat (Char.toLower c)
  by_cases h : 65 ≤ c.toNat ∧ c.toNat ≤ 90
  · rw [if_pos h] at h1
    rw [if_neg (by omega)] at h2
    omega
  · rw [if_neg h] at h1
    rw [h1, if_neg h] at h2
    omega

theorem toLower_eq_of_not_upper (c : Char)
    (h : ¬ (65 ≤ c.toNat ∧ c.toNat ≤ 90)) : Char.toLower c = c := by
  apply charEq_of_toNat
  have h1 := toLower_toNat c
  rw [if_neg h] at h1
  exact h1

theorem toLower_at_iff (c : Char) : (Char.toLower c = '@') ↔ (c = '@') := by
  constructor
  · intro h
    have h1 := toLower_toNat c
    rw [h] at h1
    by_cases hc : 65 ≤ c.toNat ∧ c.toNat ≤ 90
    · rw [if_pos hc] at h1
      have : ('@').toNat = 64 := by decide
      omega
    · rw [if_neg hc] at h1
      exact charEq_of_toNat c '@' h1.symm
  · intro h
    subst h
    decide

theorem toLower_isWhitespace (c : Char) :
    (Char.toLower c).isWhitespace = c.isWhitespace := by
  by_cases h : 65 ≤ c.toNat ∧ c.toNat ≤ 90
  · have h1 := toLower_toNat c
    rw [if_pos h] at h1
    have hlow : (Char.toLower c).isWhitespace = false := by
      unfold Char.isWhitespace
      have e1 : (Char.toLower c = ' ') = False := by
        simp only [eq_iff_iff, iff_false]
        intro he
        rw [he] at h1
        have : (' ').toNat = 32 := by decide
        omega
      have e2 : (Char.toLower c = '\t') = False := by
        simp only [eq_iff_iff, iff_false]
        intro he
        rw [he] at h1
        have : ('\t').toNat = 9 := by decide
        omega
      have e3 : (Char.toLower c = '\r') = False := by
        simp only [eq_iff_iff, iff_false]
        intro he
        rw [he] at h1
        have : ('\r').toNat = 13 := by decide
        omega
      have e4 : (Char.toLower c = '\n') = False := by
        simp only [eq_iff_iff, iff_false]
        intro he
        rw [he] at h1
        have : ('\n').toNat = 10 := by decide
        omega
      simp [e1, e2, e3, e4]
    have hc : c.isWhitespace = false := by
      unfold Char.isWhitespace
      have e1 : (c = ' ') = False := by
        simp only [eq_iff_iff, iff_false]
        intro he
        rw [he] at h
        exact absurd h (by decide)
      have e2 : (c = '\t') = False := by
        simp only [eq_iff_iff, iff_false]
        intro he
        rw [he] at h
        exact absurd h (by decide)
      have e3 : (c = '\r') = False := by
        simp only [eq_iff_iff, iff_false]
        intro he
        rw [he] at h
        exact absurd h (by decide)
      have e4 : (c = '\n') = False := by
        simp only [eq_iff_iff, iff_false]
        intro he
        rw [he] at h
        exact absurd h (by decide)
      simp [e1, e2, e3, e4]
    rw [hlow, hc]
  · rw [toLower_eq_of_not_upper c h]

/-! ## List-level case-folding lemmas -/

theorem pyLower_idem (s : Str) : pyLower (pyLower s) = pyLower s := by
  unfold pyLower
  rw [List.map_map]
  exact List.map_congr_left (fun c _ => toLower_idem c)

theorem pyLower_ne_at (c : Char) : ((Char.toLower c != '@') = (c != '@')) := by
  cases h : c == '@'
  · simp only [bne]
    have : ¬ Char.toLower c = '@' := by
      rw [toLower_at_iff]
      intro hc
      rw [hc] at h
      simp at h
    simp [this, h]
  · have : c = '@' := by
      have := (beq_iff_eq (a := c) (b := '@')).mp h
      exact this
    subst this
    decide

theorem ne_at_comp_toLower :
    ((fun c => c != '@') ∘ Char.toLower) = (fun c : Char => c != '@') :=
  funext fun c => pyLower_ne_at c

theorem ws_comp_toLower :
    (Char.isWhitespace ∘ Char.toLower) = Char.isWhitespace :=
  funext fun c => toLower_isWhitespace c

theorem takeWhile_ne_at_pyLower (s : Str) :
    (pyLower s).takeWhile (fun c => c != '@')
      = pyLower (s.takeWhile (fun c => c != '@')) := by
  unfold pyLower
  rw [List.takeWhile_map, ne_at_comp_toLower]

theorem dropWhile_ne_at_pyLower (s : Str) :
    (pyLower s).dropWhile (fun c => c != '@')
      = pyLower (s.dropWhile (fun c => c != '@')) := by
  unfold pyLower
  rw [List.dropWhile_map, ne_at_comp_toLower]

theorem atSegmentOne_pyLower (s : Str) :
    atSegmentOne (pyLower s) = pyLower (atSegmentOne s) := by
  unfold atSegmentOne
  rw [dropWhile_ne_at_pyLower]
  unfold pyLower
  rw [← List.map_drop, List.takeWhile_map, ne_at_comp_toLower]

theorem dropWhile_ws_pyLower (s : Str) :
    (pyLower s).dropWhile Char.isWhitespace
      = pyLower (s.dropWhile Char.isWhitespace) := by
  unfold pyLower
  rw [List.dropWhile_map, ws_comp_toLower]

theorem pyStrip_pyLower (s : Str) :
    pyStrip (pyLower s) = pyLower (pyStrip s) := by
  unfold pyStrip
  rw [dropWhile_ws_pyLower]
  unfold pyLower
  rw [← List.map_reverse, List.dropWhile_map, ws_comp_toLower,
    ← List.map_reverse]

theorem contains_at_pyLower (s : Str) :
    (pyLower s).contains '@' = s.contains '@' := by
  unfold pyLower
  cases h : s.contains '@'
  · simp only [List.contains_eq_any_beq] at h ⊢
    rw [List.any_map]
    rw [List.any_eq_false] at h ⊢
    intro c hc
    simp only [Function.comp]
    intro hbe
    have h1 : '@' = Char.toLower c := beq_iff_eq.mp hbe
    have h2 : Char.toLower c = '@' := h1.symm
    rw [toLower_at_iff] at h2
    exact h c hc (by simp [h2])
  · simp only [List.contains_eq_any_beq] at h ⊢
    rw [List.any_map]
    rw [List.any_eq_true] at h ⊢
    obtain ⟨c, hc, hbe⟩ := h
    refine ⟨c, hc, ?_⟩
    simp only [Function.comp]
    have h1 : c = '@' := (beq_iff_eq.mp hbe).symm
    subst h1
    decide

/-! ## Clamp lemmas -/

theorem clamp_lower_bound (x : Int) : -50 ≤ max (-50) (min 150 x) :=
  le_max_left _ _

theorem clamp_upper_bound (x : Int) : max (-50) (min 150 x) ≤ 150 :=
  max_le (by norm_num) (min_le_left _ _)

theorem mem_pyStrip (c : Char) (s : Str) (h : c ∈ pyStrip s) : c ∈ s := by
  unfold pyStrip at h
  rw [List.mem_reverse] at h
  have h2 := (List.dropWhile_sublist
    (l := (s.dropWhile Char.isWhitespace).reverse) Char.isWhitespace).mem h
  rw [List.mem_reverse] at h2
  exact (List.dropWhile_sublist Char.isWhitespace).mem h2

/-! ## C1: the enhanced score always lies within the declared bounds -/

/-- C1: for every domain, name and email and every combination of
verification flags, the score returned by `calculate_enhanced_score` lies
in `[-50, 150]`; this includes the invalid-domain early return (score 0)
and the sanctioned-domain early return (score -50). -/
theorem claim1_score_within_bounds (domain name email : Str)
    (f : VerifFlags) :
    -50 ≤ (calculate_enhanced_score domain name email f).score ∧
      (calculate_enhanced_score domain name email f).score ≤ 150 := by
  unfold calculate_enhanced_score
  cases h1 : domain.isEmpty
  · cases h2 : (get_tld domain == some (".ru".data))
    · simp only [h1, h2, Bool.false_eq_true, if_false]
      exact ⟨clamp_lower_bound _, clamp_upper_bound _⟩
    · simp only [h1, h2, Bool.false_eq_true, if_false, if_true]
      exact ⟨by norm_num, by norm_num⟩
  · simp only [h1, if_true]
    exact ⟨by norm_num, by norm_num⟩

/-- C1 witness: the bound, evaluated at one concrete input. (C1 itself has
no hypotheses; this instantiation documents a concrete evaluation.) -/
theorem claim1_witness :
    -50 ≤ (calculate_enhanced_score ("yahoo.com".data) []
      ("test123@yahoo.com".data) {}).score ∧
    (calculate_enhanced_score ("yahoo.com".data) []
      ("test123@yahoo.com".data) {}).score ≤ 150 :=
  claim1_score_within_bounds ("yahoo.com".data) [] ("test123@yahoo.com".data) {}

/-! ## C2: the enhanced score is pure and deterministic -/

/-- C2: `calculate_enhanced_score` is deterministic — two calls with
identical `(domain, name, email, verification flags)` return the identical
score, rationale string and intelligence data. (The embedding is a pure
function because the source function is: it performs only string and
regular-expression operations, with no randomness and no clock access.) -/
theorem claim2_deterministic (domain name email : Str) (f g : VerifFlags)
    (h : f = g) :
    (calculate_enhanced_score domain name email f).score
        = (calculate_enhanced_score domain name email g).score ∧
      (calculate_enhanced_score domain name email f).reason
        = (calculate_enhanced_score domain name email g).reason ∧
      (calculate_enhanced_score domain name email f).data
        = (calculate_enhanced_score domain name email g).data := by
  subst h
  exact ⟨rfl, rfl, rfl⟩

/-- C2 witness: determinism instantiated at a concrete input. -/
theorem claim2_witness :
    (calculate_enhanced_score ("gmail.com".data) ("Jo".data)
          ("jo@gmail.com".data) {}).score
        = (calculate_enhanced_score ("gmail.com".data) ("Jo".data)
          ("jo@gmail.com".data) {}).score ∧
      (calculate_enhanced_score ("gmail.com".data) ("Jo".data)
          ("jo@gmail.com".data) {}).reason
        = (calculate_enhanced_score ("gmail.com".data) ("Jo".data)
          ("jo@gmail.com".data) {}).reason ∧
      (calculate_enhanced_score ("gmail.com".data) ("Jo".data)
          ("jo@gmail.com".data) {}).data
        = (calculate_enhanced_score ("gmail.com".data) ("Jo".data)
          ("jo@gmail.com".data) {}).data :=
  claim2_deterministic ("gmail.com".data) ("Jo".data) ("jo@gmail.com".data)
    {} {} rfl

/-! ## C6: `extract_domain` -/

/-- C6 counterexample: the claim says `extract_domain` is defined iff the
email contains exactly one `'@'` with a non-empty suffix. But on
`"a@b@c"` (two `'@'`) the function is defined (returning the middle
segment `"b"`), and on `"a@"` (empty suffix) it is defined too (returning
the empty string). -/
theorem claim6_counterexample :
    extract_domain ("a@b@c".data) = some ("b".data)
      ∧ ("a@b@c".data).count '@' = 2
      ∧ extract_domain ("a@".data) = some [] := by decide

/-- C6 amended: `extract_domain email` is defined iff `email` is non-empty
and contains at least one `'@'`; it is case-insensitive
(`extract_domain (lower email) = extract_domain email`); any returned
domain is already lower-cased and contains no `'@'`, so re-applying
`extract_domain` to a returned domain yields `None` (the function is not
idempotent on its own outputs). -/
theorem claim6_extract_domain_amended (email : Str) :
    ((extract_domain email).isSome = true
        ↔ email ≠ [] ∧ email.contains '@' = true)
      ∧ extract_domain (pyLower email) = extract_domain email
      ∧ (∀ d, extract_domain email = some d →
          pyLower d = d ∧ d.contains '@' = false ∧ extract_domain d = none) := by
  refine ⟨?_, ?_, ?_⟩
  · unfold extract_domain
    cases he : email.isEmpty <;> cases hc : email.contains '@' <;>
      simp_all [List.isEmpty_iff]
  · have h1 : (pyLower email).isEmpty = email.isEmpty := by
      cases email
      · rfl
      · rfl
    unfold extract_domain
    rw [h1, contains_at_pyLower]
    cases hcond : (email.isEmpty || !email.contains '@')
    · simp only [Bool.false_eq_true, if_false]
      rw [atSegmentOne_pyLower, pyLower_idem]
    · simp
  · intro d hd
    unfold extract_domain at hd
    cases hcond : (email.isEmpty || !email.contains '@')
    · rw [hcond] at hd
      simp only [Bool.false_eq_true, if_false, Option.some.injEq] at hd
      have hmem : ∀ c ∈ d, c ≠ '@' := by
        intro c hc
        rw [← hd] at hc
        have h2 := mem_pyStrip c _ hc
        unfold pyLower at h2
        rw [List.mem_map] at h2
        obtain ⟨a, ha, hac⟩ := h2
        have h3 := List.mem_takeWhile_imp ha
        intro heq
        rw [heq] at hac
        rw [toLower_at_iff] at hac
        rw [hac] at h3
        simp at h3
      have hcont : d.contains '@' = false := by
        rw [List.contains_eq_any_beq, List.any_eq_false]
        intro c hcmem
        intro hbe
        exact (hmem c hcmem) (beq_iff_eq.mp hbe).symm
      refine ⟨?_, hcont, ?_⟩
      · rw [← hd, ← pyStrip_pyLower, pyLower_idem]
      · unfold extract_domain
        rw [hcont]
        simp
    · rw [hcond] at hd
      simp at hd

/-! ## C3: sanctioned-TLD handling -/

/-- C3 counterexample: the claim says a sanctioned-TLD match applies -50
and *continues* evaluating all other detectors. On
`("John Smith", "john.smith@company.ru")` the other detectors would fire
(the name has two tokens, so the name-format bonus would appear), yet the
returned rationale is exactly the sanctions line and the intelligence data
holds only the `sanctions_applied` key: `calculate_enhanced_score` returns
from the `.ru` branch immediately, short-circuiting everything else. -/
theorem claim3_counterexample :
    (calculate_enhanced_score ("company.ru".data) ("John Smith".data)
          ("john.smith@company.ru".data) {}).score = -50
      ∧ (calculate_enhanced_score ("company.ru".data) ("John Smith".data)
          ("john.smith@company.ru".data) {}).reason
        = "Russian domain - sanctions applied (-50), total = -50".data
      ∧ isSubstr ("Professional name format".data)
          (calculate_enhanced_score ("company.ru".data) ("John Smith".data)
            ("john.smith@company.ru".data) {}).reason = false
      ∧ (calculate_enhanced_score ("company.ru".data) ("John Smith".data)
          ("john.smith@company.ru".data) {}).data
        = [("sanctions_applied".data, IVal.b true)] := by decide

/-- C3 amended: a sanctioned-TLD (`.ru`) match sets the score to the fixed
penalty value -50 and returns immediately — it short-circuits all other
detectors instead of continuing — and the returned rationale does contain
an explicit sanctions marker. -/
theorem claim3_sanctions_amended (domain name email : Str) (f : VerifFlags)
    (h : get_tld domain = some (".ru".data)) :
    calculate_enhanced_score domain name email f
        = ⟨-50,
           "Russian domain - sanctions applied (-50), total = -50".data,
           [("sanctions_applied".data, IVal.b true)]⟩
      ∧ isSubstr ("sanctions".data)
          (calculate_enhanced_score domain name email f).reason = true := by
  have hne : domain.isEmpty = false := by
    cases domain
    · simp [get_tld] at h
    · rfl
  have hbeq : (get_tld domain == some (".ru".data)) = true := by
    rw [h]
    exact beq_self_eq_true _
  have heq : calculate_enhanced_score domain name email f
      = ⟨-50,
         "Russian domain - sanctions applied (-50), total = -50".data,
         [("sanctions_applied".data, IVal.b true)]⟩ := by
    unfold calculate_enhanced_score
    rw [hne, hbeq]
    simp only [Bool.false_eq_true, if_false, if_true]
    decide
  exact ⟨heq, by rw [heq]; decide⟩

/-- C3 witness: the amended claim applied at a concrete `.ru` input. -/
theorem claim3_witness :
    calculate_enhanced_score ("mail.ru".data) ("Bob".data)
        ("bob@mail.ru".data) {}
      = ⟨-50,
         "Russian domain - sanctions applied (-50), total = -50".data,
         [("sanctions_applied".data, IVal.b true)]⟩ :=
  (claim3_sanctions_amended ("mail.ru".data) ("Bob".data)
    ("bob@mail.ru".data) {} (by decide)).1

/-! ## C7: Scenario B -/

/-- C7 counterexample: the claim says the total for
`("", "test123@yahoo.com")` equals exactly the free-provider base (+5).
It is -30: besides the free-provider base, the username-length bonus and
three penalty detectors fire. -/
theorem claim7_counterexample :
    ¬ ((calculate_enhanced_score ("yahoo.com".data) []
      ("test123@yahoo.com".data) {}).score = 5) := by decide

/-- C7 amended: for `("", "test123@yahoo.com")`, the free-provider base
(+5) applies, liveness is skipped and no name bonus is added — but the
email-pattern analysis also adds the username-length bonus (+5) and the
random-digit penalty (-10), and the suspicious-pattern detector adds the
trailing-digit-run (-10) and test-keyword (-20) penalties, so the total is
-30, not +5. -/
theorem claim7_scenario_b_amended :
    calculate_enhanced_score ("yahoo.com".data) []
        ("test123@yahoo.com".data) {}
      = ⟨-30,
         ("Professional username length (+5), "
          ++ "Random numbers - generated account (-10), "
          ++ "Missing name or email, Sequential number pattern (-10), "
          ++ "Test/fake account pattern (-20), Free email provider (+5), "
          ++ "Free email provider - domain check skipped, "
          ++ "total = -30").data,
         [("email_pattern_score".data, IVal.i (-5)),
          ("consistency_score".data, IVal.i 0),
          ("suspicious_score".data, IVal.i (-30)),
          ("domain_type".data, IVal.s ("free".data)),
          ("domain_alive".data, IVal.b false),
          ("linkedin_verified".data, IVal.b false),
          ("linkedin_match".data, IVal.b false),
          ("facebook_verified".data, IVal.b false),
          ("facebook_match".data, IVal.b false),
          ("github_verified".data, IVal.b false),
          ("github_match".data, IVal.b false)]⟩ := by decide

/-- C6 witness: the amended claim applied at `"John@GMAIL.com "`, whose
domain extracts to the lower-cased, stripped `"gmail.com"`; re-applying
`extract_domain` to it yields `None`. -/
theorem claim6_witness :
    pyLower ("gmail.com".data) = "gmail.com".data
      ∧ ("gmail.com".data).contains '@' = false
      ∧ extract_domain ("gmail.com".data) = none :=
  (claim6_extract_domain_amended ("John@GMAIL.com ".data)).2.2
    ("gmail.com".data) (by decide)

/-! ## C9: the liveness check contributes no score delta for free providers -/

theorem fst_ite (c : Prop) [Decidable c] {α β : Type} (a b : α × β) :
    (ite c a b).1 = ite c a.1 b.1 := by
  split <;> rfl

theorem snd_ite (c : Prop) [Decidable c] {α β : Type} (a b : α × β) :
    (ite c a b).2 = ite c a.2 b.2 := by
  split <;> rfl

/-- For a free-provider domain, the accumulated score and reasons of
`enhancedComponents` do not depend on the `domain_alive` flag (only the
`intelligence_data` echo of the flag does). -/
theorem components_da_free (domain name email : Str) (f : VerifFlags)
    (b : Bool) (h : is_free_provider domain = true) :
    ((enhancedComponents domain name email { f with domain_alive := b }).1
        = (enhancedComponents domain name email f).1)
      ∧ ((enhancedComponents domain name email
            { f with domain_alive := b }).2.1
        = (enhancedComponents domain name email f).2.1) := by
  unfold enhancedComponents addComponent
  cases htld : get_tld domain <;>
    simp only [h, Bool.not_true, Bool.false_eq_true, if_false, if_true,
      fst_ite, snd_ite] <;>
    exact ⟨trivial, trivial⟩

/-- C9: for every free-provider domain, the domain-liveness input makes no
difference to the returned score (nor to the rationale): the liveness block
is skipped entirely, adding neither a bonus nor a penalty. -/
theorem claim9_free_provider_no_liveness_delta (domain name email : Str)
    (f : VerifFlags) (b : Bool) (h : is_free_provider domain = true) :
    ((calculate_enhanced_score domain name email
          { f with domain_alive := b }).score
        = (calculate_enhanced_score domain name email f).score)
      ∧ ((calculate_enhanced_score domain name email
            { f with domain_alive := b }).reason
        = (calculate_enhanced_score domain name email f).reason) := by
  unfold calculate_enhanced_score
  cases h0 : domain.isEmpty
  · cases h1 : (get_tld domain == some (".ru".data))
    · simp only [h0, h1, Bool.false_eq_true, if_false]
      have hc := components_da_free domain name email f b h
      constructor
      · dsimp only
        rw [hc.1]
      · dsimp only
        rw [hc.1, hc.2]
    · simp only [h0, h1, if_true, Bool.false_eq_true, if_false]
      exact ⟨trivial, trivial⟩
  · simp only [h0, if_true]
    exact ⟨trivial, trivial⟩

/-- C9 witness: at `("", "test123@yahoo.com")` on the free provider
`yahoo.com`, setting `domain_alive := true` leaves score and rationale
unchanged. -/
theorem claim9_witness :
    ((calculate_enhanced_score ("yahoo.com".data) []
          ("test123@yahoo.com".data)
          { ({} : VerifFlags) with domain_alive := true }).score
        = (calculate_enhanced_score ("yahoo.com".data) []
          ("test123@yahoo.com".data) {}).score)
      ∧ ((calculate_enhanced_score ("yahoo.com".data) []
            ("test123@yahoo.com".data)
            { ({} : VerifFlags) with domain_alive := true }).reason
        = (calculate_enhanced_score ("yahoo.com".data) []
          ("test123@yahoo.com".data) {}).reason) :=
  claim9_free_provider_no_liveness_delta ("yahoo.com".data) []
    ("test123@yahoo.com".data) {} true (by decide)

/-! ## C4: per-row exception isolation -/

theorem filter_length_split {α : Type} (p : α → Bool) (l : List α) :
    (l.filter p).length + (l.filter (fun x => !p x)).length = l.length := by
  induction l with
  | nil => rfl
  | cons a t ih =>
    cases hp : p a <;> simp [List.filter_cons, hp] <;> omega

theorem mem_enum_of_lt {α : Type} (l : List α) (i : Nat) (h : i < l.length) :
    (i, l.get ⟨i, h⟩) ∈ l.enum := by
  rw [List.mem_enum_iff_getElem?]
  simp [List.getElem?_eq_getElem h]

/-- C4 counterexample: in `src/app.py` (`process_in_background`) there is
no per-row exception handler. On a 3-row upload whose second row throws,
the whole job is marked failed and zero result rows are persisted — not
"remaining rows processed and job completed" as the claim states. -/
theorem claim4_counterexample :
    (process_in_background
          ⟨some ⟨["name".data, "email".data],
              [⟨"A".data, "a@x.com".data⟩, ⟨"B".data, "b@x.com".data⟩,
               ⟨"C".data, "c@x.com".data⟩]⟩,
            fun i => i == 1, fun _ => {}, true, true, true⟩).results.length = 0
      ∧ (process_in_background
          ⟨some ⟨["name".data, "email".data],
              [⟨"A".data, "a@x.com".data⟩, ⟨"B".data, "b@x.com".data⟩,
               ⟨"C".data, "c@x.com".data⟩]⟩,
            fun i => i == 1, fun _ => {}, true, true, true⟩).statuses.getLast?
        = some ("failed".data)
      ∧ ¬ ((process_in_background
            ⟨some ⟨["name".data, "email".data],
                [⟨"A".data, "a@x.com".data⟩, ⟨"B".data, "b@x.com".data⟩,
                 ⟨"C".data, "c@x.com".data⟩]⟩,
              fun i => i == 1, fun _ => {}, true, true, true⟩).results.length = 2
          ∧ (process_in_background
              ⟨some ⟨["name".data, "email".data],
                  [⟨"A".data, "a@x.com".data⟩, ⟨"B".data, "b@x.com".data⟩,
                   ⟨"C".data, "c@x.com".data⟩]⟩,
                fun i => i == 1, fun _ => {}, true, true, true⟩).statuses.getLast?
            = some ("completed".data)) := by decide

/-- C4 amended: the claimed behaviour — a row's exception is caught, an
error naming the row number is logged, only that row is skipped and the job
still completes — holds for `process_file_async` in `src/app_v05.py`
(first conjunct: for an n-row upload, surviving rows + per-row error logs
sum to n, the job ends completed, and every throwing row i has the error
log `Error processing row {i+1}: ...`). It does **not** hold for
`process_in_background` in `src/app.py` (second conjunct): there a row
exception escapes to the job-level handler, which marks the job failed
with zero persisted rows. -/
theorem claim4_per_row_isolation_amended :
    (∀ (e5 : JobEnvV05) (df : DF), e5.read = some df →
        (missingCols df).isEmpty = true → e5.dbOk = true → e5.excelOk = true →
        ((process_file_async e5).statuses.getLast? = some ("completed".data)
          ∧ (process_file_async e5).results.length
              + (process_file_async e5).errLogs.length = df.rows.length
          ∧ ∀ i, (h : i < df.rows.length) → e5.rowThrows i = true →
              ("Error processing row ".data ++ Nat.toDigits 10 (i + 1)
                ++ ": ".data) ∈ (process_file_async e5).errLogs))
      ∧ (∀ (e : JobEnv) (df : DF), e.read = some df →
          (missingCols df).isEmpty = true →
          (∃ i, i < df.rows.length ∧ e.rowThrows i = true) →
          (process_in_background e).results = []
            ∧ (process_in_background e).statuses.getLast?
              = some ("failed".data)) := by
  constructor
  · intro e5 df hr hm hdb hex
    have hout : process_file_async e5
        = ⟨["pending".data, "processing".data, "completed".data],
           (df.rows.enum.filter (fun p => !e5.rowThrows p.1)).map
             (fun p => (p.1 + 1, p.2)),
           (df.rows.enum.filter (fun p => e5.rowThrows p.1)).map
             (fun p => "Error processing row ".data
               ++ Nat.toDigits 10 (p.1 + 1) ++ ": ".data)⟩ := by
      unfold process_file_async
      rw [hr]
      dsimp only
      rw [hm, hdb, hex]
      simp only [Bool.not_true, Bool.false_eq_true, if_false]
    refine ⟨by rw [hout]; rfl, ?_, ?_⟩
    · rw [hout]
      dsimp only
      rw [List.length_map, List.length_map]
      have h1 := filter_length_split (fun p => e5.rowThrows p.1) df.rows.enum
      rw [← List.enum_length (l := df.rows)]
      omega
    · intro i h hthrow
      rw [hout]
      dsimp only
      have hmem : (i, df.rows.get ⟨i, h⟩) ∈ df.rows.enum :=
        mem_enum_of_lt df.rows i h
      have hmf : (i, df.rows.get ⟨i, h⟩)
          ∈ df.rows.enum.filter (fun p => e5.rowThrows p.1) :=
        List.mem_filter.mpr ⟨hmem, hthrow⟩
      exact List.mem_map_of_mem _ hmf
  · intro e df hr hm hex
    have hany : (List.range df.rows.length).any e.rowThrows = true := by
      rw [List.any_eq_true]
      obtain ⟨i, hi, ht⟩ := hex
      exact ⟨i, List.mem_range.mpr hi, ht⟩
    have hout : process_in_background e
        = ⟨["processing".data, "failed".data], [],
           ["Processing error".data]⟩ := by
      unfold process_in_background
      rw [hr]
      dsimp only
      rw [hm, hany]
      simp only [Bool.not_true, Bool.false_eq_true, if_false, if_true]
    rw [hout]
    exact ⟨rfl, rfl⟩

/-- C4 witness: the amended claim applied to a 3-row v05 job whose second
row throws: the job completes and the row-2 error log is present. -/
theorem claim4_witness :
    ((process_file_async ⟨some ⟨["name".data, "email".data],
          [⟨"A".data, "a@x.com".data⟩, ⟨"B".data, "b@x.com".data⟩,
           ⟨"C".data, "c@x.com".data⟩]⟩,
        fun i => i == 1, true, true⟩).statuses.getLast?
        = some ("completed".data))
      ∧ ("Error processing row ".data ++ Nat.toDigits 10 (1 + 1)
            ++ ": ".data
          ∈ (process_file_async ⟨some ⟨["name".data, "email".data],
              [⟨"A".data, "a@x.com".data⟩, ⟨"B".data, "b@x.com".data⟩,
               ⟨"C".data, "c@x.com".data⟩]⟩,
            fun i => i == 1, true, true⟩).errLogs) := by
  have h := claim4_per_row_isolation_amended.1
    ⟨some ⟨["name".data, "email".data],
        [⟨"A".data, "a@x.com".data⟩, ⟨"B".data, "b@x.com".data⟩,
         ⟨"C".data, "c@x.com".data⟩]⟩,
      fun i => i == 1, true, true⟩
    ⟨["name".data, "email".data],
        [⟨"A".data, "a@x.com".data⟩, ⟨"B".data, "b@x.com".data⟩,
         ⟨"C".data, "c@x.com".data⟩]⟩
    rfl (by decide) rfl rfl
  exact ⟨h.1, h.2.2 1 (by decide) (by decide)⟩

/-! ## C5: missing required columns -/

/-- C5: when the upload is missing a required column (`name` or `email`),
the job is marked failed immediately, zero result rows are persisted, and
exactly one error log entry is written, whose message names every missing
column. -/
theorem claim5_missing_columns (env : JobEnv) (df : DF)
    (hr : env.read = some df) (hm : (missingCols df).isEmpty = false) :
    (process_in_background env).statuses
        = ["processing".data, "failed".data]
      ∧ (process_in_background env).results = []
      ∧ (process_in_background env).errLogs
        = ["Missing required columns: ".data ++ joinComma (missingCols df)]
      ∧ ∀ c ∈ missingCols df,
          isSubstr c ("Missing required columns: ".data
            ++ joinComma (missingCols df)) = true := by
  have hout : process_in_background env
      = ⟨["processing".data, "failed".data], [],
         ["Missing required columns: ".data ++ joinComma (missingCols df)]⟩ := by
    unfold process_in_background
    rw [hr]
    simp only [hm, Bool.not_false, if_true]
  refine ⟨by rw [hout], by rw [hout], by rw [hout], ?_⟩
  unfold missingCols at hm ⊢
  cases hn : df.cols.contains ("name".data) <;>
    cases he : df.cols.contains ("email".data) <;>
      simp only [List.filter_cons, List.filter_nil, hn, he, Bool.not_true,
        Bool.not_false, if_true, if_false] <;>
      decide

/-- C5 witness: an upload with only a `name` column fails with the single
error log `Missing required columns: email`. -/
theorem claim5_witness :
    (process_in_background ⟨some ⟨["name".data], []⟩,
          fun _ => false, fun _ => {}, true, true, true⟩).statuses
        = ["processing".data, "failed".data]
      ∧ (process_in_background ⟨some ⟨["name".data], []⟩,
          fun _ => false, fun _ => {}, true, true, true⟩).results = []
      ∧ (process_in_background ⟨some ⟨["name".data], []⟩,
          fun _ => false, fun _ => {}, true, true, true⟩).errLogs
        = ["Missing required columns: email".data] := by
  have h := claim5_missing_columns
    ⟨some ⟨["name".data], []⟩, fun _ => false, fun _ => {}, true, true, true⟩
    ⟨["name".data], []⟩ rfl (by decide)
  refine ⟨h.1, h.2.1, ?_⟩
  rw [h.2.2.1]
  decide

/-! ## C8: job status monotonicity -/

/-- C8 counterexample: with a successful run whose post-completion epilogue
(success log write / temp-file unlink) raises, the job-level exception
handler of `process_in_background` marks the already-completed session
failed: the committed status sequence is
`processing, completed, failed`, which is not a subsequence of the claimed
chain `pending → processing → {completed | failed}`. -/
theorem claim8_counterexample :
    (process_in_background
          ⟨some ⟨["name".data, "email".data],
              [⟨"Ann Lee".data, "ann.lee@x.com".data⟩]⟩,
            fun _ => false, fun _ => {}, true, true, false⟩).statuses
        = ["processing".data, "completed".data, "failed".data]
      ∧ statusChainOk (destutterStatuses (process_in_background
          ⟨some ⟨["name".data, "email".data],
              [⟨"Ann Lee".data, "ann.lee@x.com".data⟩]⟩,
            fun _ => false, fun _ => {}, true, true, false⟩).statuses)
        = false := by
  decide

/-- C8 amended: every committed status sequence of `process_in_background`
(duplicates collapsed) is `processing → completed`,
`processing → failed`, or — only when the post-completion epilogue raises —
`processing → completed → failed`; a job never returns to `pending` or
`processing`. In particular, whenever the post-completion epilogue
succeeds, the sequence is a subsequence of the claimed chain
`pending → processing → {completed | failed}` (the `pending` state itself
never occurs in `src/app.py`, which creates the session directly in
`processing`). -/
theorem claim8_status_monotone_amended :
    (∀ env : JobEnv,
        destutterStatuses (process_in_background env).statuses
            = ["processing".data, "completed".data]
          ∨ destutterStatuses (process_in_background env).statuses
            = ["processing".data, "failed".data]
          ∨ destutterStatuses (process_in_background env).statuses
            = ["processing".data, "completed".data, "failed".data])
      ∧ (∀ env : JobEnv, env.postOk = true →
          statusChainOk
            (destutterStatuses (process_in_background env).statuses)
            = true) := by
  constructor
  · intro env
    rcases henv : env.read with _ | df
    · unfold process_in_background
      rw [henv]
      dsimp only
      decide
    · unfold process_in_background
      rw [henv]
      dsimp only
      cases hm : (missingCols df).isEmpty <;>
        cases ha : (List.range df.rows.length).any env.rowThrows <;>
          cases hex : env.excelOk <;>
            cases hdb : env.dbOk <;>
              cases hpo : env.postOk <;>
                simp only [hm, ha, hex, hdb, hpo, Bool.not_true,
                  Bool.not_false, Bool.false_eq_true, if_true, if_false] <;>
                decide
  · intro env hpost
    rcases henv : env.read with _ | df
    · unfold process_in_background
      rw [henv]
      dsimp only
      decide
    · unfold process_in_background
      rw [henv]
      dsimp only
      cases hm : (missingCols df).isEmpty <;>
        cases ha : (List.range df.rows.length).any env.rowThrows <;>
          cases hex : env.excelOk <;>
            cases hdb : env.dbOk <;>
              simp only [hm, ha, hex, hdb, hpost, Bool.not_true,
                Bool.not_false, Bool.false_eq_true, if_true, if_false] <;>
              decide

/-- C8 witness: the chain property holds for a concrete successful run
(post-completion epilogue succeeds). -/
theorem claim8_witness :
    statusChainOk (destutterStatuses (process_in_background
        ⟨some ⟨["name".data, "email".data],
            [⟨"Ann Lee".data, "ann.lee@x.com".data⟩]⟩,
          fun _ => false, fun _ => {}, true, true, true⟩).statuses)
      = true :=
  claim8_status_monotone_amended.2
    ⟨some ⟨["name".data, "email".data],
        [⟨"Ann Lee".data, "ann.lee@x.com".data⟩]⟩,
      fun _ => false, fun _ => {}, true, true, true⟩ rfl


/-! ## C10: the progress stream -/

theorem logPayloads_cons_progress (st : Str) (evs : List SEvent) :
    logPayloads (SEvent.progress st :: evs) = logPayloads evs := rfl

theorem logPayloads_logs (xs : List Str) (evs : List SEvent) :
    logPayloads (xs.map SEvent.log ++ evs) = xs ++ logPayloads evs := by
  unfold logPayloads
  rw [List.filterMap_append, List.filterMap_map]
  congr 1
  induction xs with
  | nil => rfl
  | cons a t ih => simp_all [List.filterMap_cons]

theorem connected_not_in_streamLoop (sched : List SnapSt) (cur : Nat) :
    SEvent.connected ∉ (streamLoop sched cur).1 := by
  induction sched generalizing cur with
  | nil => simp [streamLoop]
  | cons s rest ih =>
    cases s with
    | present step logs =>
      unfold streamLoop
      cases hc : (step == completedStep)
      · simp only [Bool.false_eq_true, if_false]
        intro hmem
        simp only [List.cons_append, List.mem_cons, List.mem_append,
          List.mem_map] at hmem
        rcases hmem with h | hmem
        · exact absurd h (by simp)
        · rcases hmem with ⟨x, _, hx⟩ | h
          · exact absurd hx (by simp)
          · exact ih _ h
      · simp only [if_true]
        intro hmem
        simp only [List.cons_append, List.mem_cons, List.mem_append,
          List.mem_map, List.mem_singleton] at hmem
        rcases hmem with h | hmem
        · exact absurd h (by simp)
        · rcases hmem with ⟨x, _, hx⟩ | h
          · exact absurd hx (by simp)
          · exact absurd h (by simp)
    | absent st =>
      unfold streamLoop
      cases hc : (st == some completedStep)
      · simp only [Bool.false_eq_true, if_false]
        exact ih cur
      · simp

theorem closed_last_complete (sched : List SnapSt) (cur : Nat)
    (h : (streamLoop sched cur).2 = true) :
    (streamLoop sched cur).1.getLast? = some SEvent.complete := by
  induction sched generalizing cur with
  | nil => simp [streamLoop] at h
  | cons s rest ih =>
    cases s with
    | present step logs =>
      unfold streamLoop at h ⊢
      cases hc : (step == completedStep)
      · rw [hc] at h
        simp only [Bool.false_eq_true, if_false] at h ⊢
        have h2 := ih _ h
        rw [List.getLast?_append_of_ne_nil]
        · exact h2
        · intro hnil
          rw [hnil] at h2
          simp at h2
      · simp only [if_true]
        rw [List.getLast?_concat]
    | absent st =>
      unfold streamLoop at h ⊢
      cases hc : (st == some completedStep)
      · rw [hc] at h
        simp only [Bool.false_eq_true, if_false] at h ⊢
        exact ih _ h
      · simp

theorem not_closed_no_complete (sched : List SnapSt) (cur : Nat)
    (h : (streamLoop sched cur).2 = false) :
    SEvent.complete ∉ (streamLoop sched cur).1 := by
  induction sched generalizing cur with
  | nil => simp [streamLoop]
  | cons s rest ih =>
    cases s with
    | present step logs =>
      unfold streamLoop at h ⊢
      cases hc : (step == completedStep)
      · rw [hc] at h
        simp only [Bool.false_eq_true, if_false] at h ⊢
        intro hmem
        simp only [List.cons_append, List.mem_cons, List.mem_append,
          List.mem_map] at hmem
        rcases hmem with h1 | hmem
        · exact absurd h1 (by simp)
        · rcases hmem with ⟨x, _, hx⟩ | h1
          · exact absurd hx (by simp)
          · exact ih _ h h1
      · rw [hc] at h
        simp at h
    | absent st =>
      unfold streamLoop at h ⊢
      cases hc : (st == some completedStep)
      · rw [hc] at h
        simp only [Bool.false_eq_true, if_false] at h ⊢
        exact ih _ h
      · rw [hc] at h
        simp at h

theorem never_completed_not_closed (sched : List SnapSt) (cur : Nat)
    (h : ∀ s ∈ sched, notCompleted s = true) :
    (streamLoop sched cur).2 = false := by
  induction sched generalizing cur with
  | nil => simp [streamLoop]
  | cons s rest ih =>
    have hs := h s (List.mem_cons_self s rest)
    have hrest : ∀ x ∈ rest, notCompleted x = true :=
      fun x hx => h x (List.mem_cons_of_mem s hx)
    cases s with
    | present step logs =>
      unfold streamLoop
      unfold notCompleted at hs
      have hc : (step == completedStep) = false := by
        cases hcc : (step == completedStep)
        · rfl
        · exact absurd (beq_iff_eq.mp hcc) (bne_iff_ne.mp hs)
      rw [hc]
      simp only [Bool.false_eq_true, if_false]
      exact ih _ hrest
    | absent st =>
      unfold streamLoop
      unfold notCompleted at hs
      have hc : (st == some completedStep) = false := by
        cases hcc : (st == some completedStep)
        · rfl
        · exact absurd (beq_iff_eq.mp hcc) (bne_iff_ne.mp hs)
      rw [hc]
      simp only [Bool.false_eq_true, if_false]
      exact ih _ hrest


theorem logPayloads_block (st : Str) (xs : List Str) (t : List SEvent) :
    logPayloads ((SEvent.progress st :: xs.map SEvent.log) ++ t)
      = xs ++ logPayloads t := by
  rw [List.cons_append, logPayloads_cons_progress]
  exact logPayloads_logs xs t

theorem chain_prefix_getLast (p : Str × List Str)
    (rest : List (Str × List Str))
    (hchain : List.Chain' (fun a b => a.2 <+: b.2) (p :: rest))
    (q : Str × List Str) (hq : rest.getLast? = some q) : p.2 <+: q.2 := by
  induction rest generalizing p with
  | nil => simp at hq
  | cons r rest' ih =>
    rw [List.chain'_cons] at hchain
    rcases rest' with _ | ⟨r2, rest''⟩
    · simp only [List.getLast?_singleton, Option.some.injEq] at hq
      rw [← hq]
      exact hchain.1
    · rw [List.getLast?_cons_cons] at hq
      exact (hchain.1).trans (ih r hchain.2 hq)

theorem prefix_drop_append {α : Type} (l₁ l₂ : List α) (n : Nat)
    (hp : l₁ <+: l₂) (hn : n ≤ l₁.length) :
    l₁.drop n ++ l₂.drop l₁.length = l₂.drop n := by
  obtain ⟨t, rfl⟩ := hp
  rw [List.drop_left, List.drop_append_of_le_length hn]

theorem payloads_aux (states : List (Str × List Str)) (cur : Nat)
    (hcur : ∀ p, states.head? = some p → cur ≤ p.2.length)
    (hchain : List.Chain' (fun a b => a.2 <+: b.2) states)
    (hmid : ∀ p ∈ states.dropLast, (p.1 == completedStep) = false) :
    logPayloads
        (streamLoop (states.map (fun p => SnapSt.present p.1 p.2)) cur).1
      = (match states.getLast? with
          | some p => p.2.drop cur
          | none => []) := by
  induction states generalizing cur with
  | nil => rfl
  | cons p rest ih =>
    rw [List.map_cons]
    unfold streamLoop
    cases hc : (p.1 == completedStep)
    · simp only [Bool.false_eq_true, if_false]
      rcases rest with _ | ⟨q, rest'⟩
      · rw [logPayloads_block]
        simp [streamLoop, logPayloads]
      · have hcur2 : (if (p.2.drop cur).isEmpty then cur else p.2.length)
            = p.2.length := by
          cases hni : (p.2.drop cur).isEmpty
          · simp only [Bool.false_eq_true, if_false]
          · simp only [if_true]
            rw [List.isEmpty_iff, List.drop_eq_nil_iff] at hni
            have hc0 := hcur p rfl
            omega
        rw [logPayloads_block, hcur2]
        have hch := List.chain'_cons.mp hchain
        have hmid' : ∀ r ∈ (q :: rest').dropLast,
            (r.1 == completedStep) = false := by
          intro r hr
          apply hmid
          rw [List.dropLast_cons₂]
          exact List.mem_cons_of_mem p hr
        have ihh := ih p.2.length
          (fun r hr => by
            rw [List.head?_cons, Option.some.injEq] at hr
            rw [← hr]
            exact hch.1.length_le)
          hch.2 hmid'
        rw [ihh, List.getLast?_cons_cons]
        cases hl : (q :: rest').getLast? with
        | none =>
          rw [List.getLast?_eq_none_iff] at hl
          exact absurd hl (by simp)
        | some lastp =>
          have hpl : p.2 <+: lastp.2 :=
            chain_prefix_getLast p (q :: rest') hchain lastp hl
          exact prefix_drop_append p.2 lastp.2 cur hpl (hcur p rfl)
    · rcases rest with _ | ⟨q, rest'⟩
      · simp only [if_true]
        rw [logPayloads_block]
        simp [logPayloads]
      · exfalso
        have hf := hmid p (by
          rw [List.dropLast_cons₂]
          exact List.mem_cons_self p _)
        exact absurd hc (by simp [hf])


/-- C10 counterexample: for a job that ends in failed status, the stream of
`progress_stream` never emits a terminal `complete` event and never closes:
with the snapshot stuck on step `'failed'` (the failed path never evicts
the snapshot), and likewise with only a database status `'failed'`, no
prefix of the polling loop contains `complete`. The claim demands a
terminal `complete` for every job, including failed ones. -/
theorem claim10_counterexample :
    (progress_stream
        (List.replicate 4 (SnapSt.present ("failed".data) []))).2 = false
      ∧ SEvent.complete ∉ (progress_stream
          (List.replicate 4 (SnapSt.present ("failed".data) []))).1
      ∧ (progress_stream
          (List.replicate 4 (SnapSt.absent (some ("failed".data))))).2 = false
      ∧ SEvent.complete ∉ (progress_stream
          (List.replicate 4 (SnapSt.absent (some ("failed".data))))).1 := by
  decide

/-- C10 amended: the stream emits exactly one `connected` event, first; if
the stream closes, its last event is `complete`; each `log` event carries
only entries not yet sent (for a monotone schedule of snapshots the log
payloads, concatenated, equal the final log list — each entry exactly
once, in order). But the terminal `complete` (and closing) happens only
for jobs whose snapshot or database status reaches `completed`: on any
schedule that never shows `completed` — in particular a job that ends
`failed` — the stream never emits `complete` and never closes. -/
theorem claim10_stream_amended :
    (∀ sched : List SnapSt,
        (progress_stream sched).1.head? = some SEvent.connected
          ∧ SEvent.connected ∉ (streamLoop sched 0).1)
      ∧ (∀ sched : List SnapSt, (progress_stream sched).2 = true →
          (progress_stream sched).1.getLast? = some SEvent.complete)
      ∧ (∀ sched : List SnapSt, (∀ s ∈ sched, notCompleted s = true) →
          (progress_stream sched).2 = false
            ∧ SEvent.complete ∉ (progress_stream sched).1)
      ∧ (∀ states : List (Str × List Str),
          List.Chain' (fun a b => a.2 <+: b.2) states →
          (∀ p ∈ states.dropLast, (p.1 == completedStep) = false) →
          logPayloads (progress_stream
              (states.map (fun p => SnapSt.present p.1 p.2))).1
            = (match states.getLast? with
                | some p => p.2
                | none => [])) := by
  refine ⟨?_, ?_, ?_, ?_⟩
  · intro sched
    exact ⟨rfl, connected_not_in_streamLoop sched 0⟩
  · intro sched h
    have h2 := closed_last_complete sched 0 h
    show (SEvent.connected :: (streamLoop sched 0).1).getLast?
      = some SEvent.complete
    cases hevs : (streamLoop sched 0).1 with
    | nil =>
      rw [hevs] at h2
      simp at h2
    | cons e t =>
      rw [hevs] at h2
      rw [List.getLast?_cons_cons]
      exact h2
  · intro sched hnc
    have hcl := never_completed_not_closed sched 0 hnc
    refine ⟨hcl, ?_⟩
    intro hmem
    have hno := not_closed_no_complete sched 0 hcl
    rcases List.mem_cons.mp hmem with h | h
    · exact absurd h (by simp)
    · exact hno h
  · intro states hchain hmid
    have h := payloads_aux states 0 (fun p hp => Nat.zero_le _) hchain hmid
    show logPayloads (SEvent.connected ::
        (streamLoop (states.map (fun p => SnapSt.present p.1 p.2)) 0).1) = _
    rw [show logPayloads (SEvent.connected ::
        (streamLoop (states.map (fun p => SnapSt.present p.1 p.2)) 0).1)
      = logPayloads
          (streamLoop (states.map (fun p => SnapSt.present p.1 p.2)) 0).1
      from rfl]
    rw [h]
    cases states.getLast? with
    | none => rfl
    | some p => exact List.drop_zero p.2

/-- C10 witness: a two-iteration schedule — a `processing` snapshot with
one log entry, then a `completed` snapshot with two — yields a closed
stream whose last event is `complete` and whose log payloads are the two
entries, each exactly once, in order. -/
theorem claim10_witness :
    logPayloads (progress_stream
        [SnapSt.present ("processing".data) ["a".data],
         SnapSt.present ("completed".data) ["a".data, "b".data]]).1
      = ["a".data, "b".data] := by
  have h := claim10_stream_amended.2.2.2
    [(("processing".data), ["a".data]),
     (("completed".data), ["a".data, "b".data])]
    (by
      rw [List.chain'_cons]
      exact ⟨⟨[("b".data)], rfl⟩, List.chain'_singleton _⟩)
    (by decide)
  rw [show ([(("processing".data), ["a".data]),
      (("completed".data), ["a".data, "b".data])].map
        (fun p => SnapSt.present p.1 p.2))
    = [SnapSt.present ("processing".data) ["a".data],
       SnapSt.present ("completed".data) ["a".data, "b".data]] from rfl] at h
  rw [h]
  rfl


end SalesFilter
